import Mathlib

/-!
Verification of the fusion-v14 prompt-routing core against its specification.

The Python source is shallowly embedded: dictionaries become association
lists (`List (String × β)`), floats become exact rationals (`ℚ`),
wall-clock timestamps become opaque string/rational parameters, and the
fallible JSON-file writes become an explicit `writeOk : Bool` parameter
(the environment decides whether the write succeeds).  `datetime.now()`
and `time.time()` values are threaded as parameters where observable and
dropped where no claim mentions them.
-/

namespace Fusion

/-- Association-list lookup, mirroring Python `dict.get` /
`d[k]` on the string-keyed dictionaries of the source. -/
def lookupA {β : Type} : List (String × β) → String → Option β
  | [], _ => none
  | (k', v) :: rest, k => if k' = k then some v else lookupA rest k

/-- Association-list insert-or-overwrite, mirroring Python `d[k] = v`:
an existing key keeps its position, a new key is appended. -/
def updateAssoc {β : Type} : List (String × β) → String → β → List (String × β)
  | [], k, v => [(k, v)]
  | (k', v') :: rest, k, v =>
      if k' = k then (k, v) :: rest else (k', v') :: updateAssoc rest k v

/-! ### `src/patterns/pattern_registry.py` -/

/-- Per-pattern usage statistics, the dict initialised in
`PatternRegistry.register_pattern` / `record_pattern_usage`. -/
structure UsageStats where
  usageCount : Nat
  successCount : Nat
  lastUsed : Option String
  avgConfidence : ℚ
deriving Repr, DecidableEq

/-- The initial statistics dict
`{"usage_count": 0, "success_count": 0, "last_used": None, "avg_confidence": 0.0}`. -/
def initialStats : UsageStats :=
  { usageCount := 0, successCount := 0, lastUsed := none, avgConfidence := 0 }

/-- The `pattern_data` dict passed to `PatternRegistry.register_pattern`.
Optional dict fields are `Option`; `get` defaults are applied at use sites. -/
structure PatternData where
  type : Option String := none
  agent : Option String := none
  enhancement : Option String := none
  tools : List String := []
  confidenceThreshold : Option ℚ := none
  fallbackPatterns : List String := []
  metadata : List (String × String) := []
  transformationAddContext : Option String := none
  transformationEnhanceFormat : Option String := none
deriving Repr, DecidableEq

/-- The mutable state of `PatternRegistry` (its four dict attributes). -/
structure Registry where
  patterns : List (String × PatternData)
  patternMetadata : List (String × List (String × String))
  fallbackPatterns : List (String × List String)
  patternUsageStats : List (String × UsageStats)
deriving Repr, DecidableEq

/-- `PatternRegistry.register_pattern(name, pattern_data)`: overwrites the
pattern, its metadata and its fallback list, and unconditionally resets the
usage statistics of `name` to the initial dict. -/
def register_pattern (reg : Registry) (name : String) (data : PatternData) : Registry :=
  { patterns := updateAssoc reg.patterns name data
    patternMetadata := updateAssoc reg.patternMetadata name data.metadata
    patternUsageStats := updateAssoc reg.patternUsageStats name initialStats
    fallbackPatterns := updateAssoc reg.fallbackPatterns name data.fallbackPatterns }

/-- `PatternRegistry.record_pattern_usage(name, confidence, success)`:
initialises missing stats, increments counts, stamps `last_used` with the
current time (`now`), and updates the running average confidence with
`((avg * (count - 1)) + confidence) / count` where `count` is the count
after the increment. -/
def record_pattern_usage (reg : Registry) (name : String) (confidence : ℚ)
    (success : Bool) (now : String) : Registry :=
  let stats := (lookupA reg.patternUsageStats name).getD initialStats
  let usageCount := stats.usageCount + 1
  let successCount := stats.successCount + (if success then 1 else 0)
  let avgConfidence :=
    ((stats.avgConfidence * ((usageCount : ℚ) - 1)) + confidence) / (usageCount : ℚ)
  { reg with
      patternUsageStats := updateAssoc reg.patternUsageStats name
        { usageCount := usageCount
          successCount := successCount
          lastUsed := some now
          avgConfidence := avgConfidence } }

/-- One `record_pattern_usage` call's arguments: confidence, success flag,
and the wall-clock timestamp observed during the call. -/
def recordStep (name : String) (reg : Registry) (c : ℚ × Bool × String) : Registry :=
  record_pattern_usage reg name c.1 c.2.1 c.2.2

/-- The empty registry state (before `_initialize_default_patterns`). -/
def emptyRegistry : Registry :=
  { patterns := [], patternMetadata := [], fallbackPatterns := [], patternUsageStats := [] }

/-! ### Agent result dictionaries (`run(prompt, tools) -> dict`) -/

/-- The result dict returned by an agent's `run`, with the keys the core
reads (`confidence`, `output`, `enhanced_output`, `shared_state`, `error`)
and the keys `_transform_output_with_pattern` may add (`context`,
`formatted_output`).  A missing key is `none` / `[]`. -/
structure AgentResult where
  confidence : Option ℚ := none
  output : Option String := none
  enhancedOutput : Option String := none
  sharedState : List (String × String) := []
  error : Option String := none
  context : Option String := none
  formattedOutput : Option String := none
deriving Repr, DecidableEq

/-! ### `src/ChatGPT_Upload_v14/core/fusion_context.py` -/

/-- The `MemoryEntry` dataclass of `fusion_context.py`. -/
structure CtxMemoryEntry where
  timestamp : String
  agentName : String
  inputPrompt : String
  output : AgentResult
  confidence : ℚ
  toolsUsed : List String
  executionTime : ℚ
  patternApplied : Option String := none
deriving Repr, DecidableEq

/-- The mutable state of `FusionContext` (shared state, memory log and
per-pattern memory).  `execution_history` is never written by the source
and is omitted. -/
structure FusionCtx where
  sharedState : List (String × String) := []
  memory : List CtxMemoryEntry := []
  patternMemory : List (String × List (String × String)) := []
deriving Repr, DecidableEq

/-- `FusionContext.store_interaction(...)`: builds a `MemoryEntry` stamped
with the current time (`now`) and appends it to `self.memory`.  The body
performs no persistence and has no failing operation, so the embedding is a
total function. -/
def store_interaction (ctx : FusionCtx) (agentName inputPrompt : String)
    (output : AgentResult) (confidence : ℚ) (toolsUsed : List String)
    (executionTime : ℚ) (patternApplied : Option String) (now : String) : FusionCtx :=
  { ctx with
      memory := ctx.memory ++
        [{ timestamp := now
           agentName := agentName
           inputPrompt := inputPrompt
           output := output
           confidence := confidence
           toolsUsed := toolsUsed
           executionTime := executionTime
           patternApplied := patternApplied }] }

/-! ### `src/ChatGPT_10_Files/core/execution_chain_orchestrator.py` -/

/-- The result dict stored by `_store_in_memory`; only its `status` key is
read by the core (`result.get("status") == "✅ SUCCESS"`), the rest is
opaque payload. -/
structure ChainResult where
  status : String := ""
  payload : String := ""
deriving Repr, DecidableEq

/-- One entry of `ExecutionChainOrchestrator.memory`. -/
structure ChainEntry where
  input : String
  result : ChainResult
  timestamp : String
  success : Bool
deriving Repr, DecidableEq

/-- `ExecutionChainOrchestrator._store_in_memory(input_prompt, result)`:
appends an entry and truncates to the last 100 entries
(`self.memory = self.memory[-100:]`) when the count exceeds 100. -/
def store_in_memory (memory : List ChainEntry) (inputPrompt : String)
    (result : ChainResult) (now : String) : List ChainEntry :=
  let m := memory ++
    [{ input := inputPrompt
       result := result
       timestamp := now
       success := result.status == "✅ SUCCESS" }]
  if 100 < m.length then m.drop (m.length - 100) else m

/-! ### `src/ChatGPT_10_Files/memory_system.py` -/

/-- The `MemoryEntry` dataclass of `memory_system.py` (dict-shaped after
`asdict`). -/
structure MemEntry where
  timestamp : ℚ
  agent_name : String
  input_text : String
  output : String
  confidence : ℚ
  patterns_used : List String
  tools_used : List String
  execution_time : ℚ
deriving Repr, DecidableEq

/-- The per-pattern statistics dict kept by `AgentMemory._update_patterns`
(`performance_metrics` is created empty and never written, so omitted). -/
structure PatternPerf where
  usage_count : Nat
  success_rate : ℚ
  last_used : ℚ
deriving Repr, DecidableEq

/-- The mutable state of `AgentMemory` (its three data attributes). -/
structure AgentMemoryState where
  memory : List MemEntry
  patterns : List (String × PatternPerf)
  shared_state : List (String × String)
deriving Repr, DecidableEq

/-- One step of `AgentMemory._update_patterns`: initialise missing stats,
bump the count, stamp `last_used`, and fold the confidence into the
success rate when it exceeds 0.7. -/
def update_patterns_step (timestamp confidence : ℚ)
    (patterns : List (String × PatternPerf)) (p : String) : List (String × PatternPerf) :=
  let pd := (lookupA patterns p).getD { usage_count := 0, success_rate := 0, last_used := 0 }
  let count := pd.usage_count + 1
  let sr :=
    if (7 : ℚ)/10 < confidence then
      (pd.success_rate * ((count : ℚ) - 1) + 1) / (count : ℚ)
    else pd.success_rate
  updateAssoc patterns p { usage_count := count, success_rate := sr, last_used := timestamp }

/-- `AgentMemory.add_memory_entry(entry)`: appends the entry, updates the
pattern statistics, then calls `save_memory`, whose file write is modelled
by `writeOk`.  `save_memory` has no exception handling, so a failed write
propagates as an error to the caller. -/
def add_memory_entry (st : AgentMemoryState) (e : MemEntry) (writeOk : Bool) :
    Except String AgentMemoryState :=
  let st' : AgentMemoryState :=
    { st with
        memory := st.memory ++ [e]
        patterns := e.patterns_used.foldl (update_patterns_step e.timestamp e.confidence) st.patterns }
  if writeOk then .ok st' else .error "write error"

/-- Whitespace splitter (accumulator holds the current word reversed):
splits on whitespace runs and drops empty pieces, like Python `split()`. -/
def splitWordsAux : List Char → List Char → List String
  | [], acc => if acc.isEmpty then [] else [String.mk acc.reverse]
  | c :: rest, acc =>
      if c.isWhitespace then
        if acc.isEmpty then splitWordsAux rest []
        else String.mk acc.reverse :: splitWordsAux rest []
      else splitWordsAux rest (c :: acc)

/-- Python `s.lower().split()`: lower-case, split on whitespace, drop the
empty pieces. -/
def promptWords (s : String) : List String :=
  splitWordsAux (s.toList.map Char.toLower) []

/-- The relevance score `AgentMemory.get_relevant_memory` computes for one
entry: `|query_words ∩ entry_words| / max(|query_words|, 1)` over the word
sets of the query and the entry's `input_text`. -/
def relevance_score (query : String) (e : MemEntry) : ℚ :=
  let qws := (promptWords query).dedup
  let ews := (promptWords e.input_text).dedup
  ((qws.filter (fun w => w ∈ ews)).length : ℚ) / (max qws.length 1 : ℚ)

/-- The `scored_entries` list of `get_relevant_memory`: entries in memory
order paired with their scores, keeping only scores strictly above 0.1. -/
def scored_entries (st : AgentMemoryState) (query : String) : List (MemEntry × ℚ) :=
  st.memory.filterMap (fun e =>
    let s := relevance_score query e
    if (1 : ℚ)/10 < s then some (e, s) else none)

/-- The comparison `get_relevant_memory` sorts by: descending relevance
score (the second component of a scored entry). -/
def scoreGE (a b : MemEntry × ℚ) : Prop := b.2 ≤ a.2

instance : DecidableRel scoreGE := fun a b => inferInstanceAs (Decidable (b.2 ≤ a.2))

instance : IsTotal (MemEntry × ℚ) scoreGE := ⟨fun a b => le_total b.2 a.2⟩

instance : IsTrans (MemEntry × ℚ) scoreGE := ⟨fun _ _ _ h1 h2 => le_trans h2 h1⟩

/-- `AgentMemory.get_relevant_memory(query, limit)`: score, filter, sort
descending by score (Python's `list.sort` is stable, which
`List.insertionSort` with `scoreGE` reproduces), and take the first
`limit` entries. -/
def get_relevant_memory (st : AgentMemoryState) (query : String) (limit : Nat) : List MemEntry :=
  (((scored_entries st query).insertionSort scoreGE).take limit).map Prod.fst

/-- Demo query with ten distinct words, for exercising the relevance
threshold boundary `1/10`. -/
def c5query : String := "alpha beta gamma delta epsilon zeta eta theta iota kappa"

/-- Older entry sharing two query words (score `1/5`). -/
def c5e1 : MemEntry :=
  { timestamp := 1, agent_name := "a1", input_text := "alpha beta", output := "o1",
    confidence := 1/2, patterns_used := [], tools_used := [], execution_time := 0 }

/-- Newer entry sharing two query words (score `1/5`, tied with `c5e1`). -/
def c5e2 : MemEntry :=
  { timestamp := 2, agent_name := "a2", input_text := "gamma delta", output := "o2",
    confidence := 1/2, patterns_used := [], tools_used := [], execution_time := 0 }

/-- Newest entry sharing exactly one query word (score exactly `1/10`). -/
def c5e3 : MemEntry :=
  { timestamp := 3, agent_name := "a3", input_text := "epsilon", output := "o3",
    confidence := 1/2, patterns_used := [], tools_used := [], execution_time := 0 }

/-- Demo memory store holding `c5e1`, `c5e2`, `c5e3` in insertion order. -/
def c5store : AgentMemoryState :=
  { memory := [c5e1, c5e2, c5e3], patterns := [], shared_state := [] }

/-! ### `src/ChatGPT_10_Files/core/execution_orchestrator_v14.py`

The orchestrator's memory effects are embedded writer-style: each
operation returns, next to its Python return-value-or-exception, the list
of `MemoryEntry` records it appended via `context.store_interaction`
(which only ever appends — see `store_interaction`); the memory after a
call is the memory before it concatenated with those entries.  Timestamps
and wall-clock durations are modelled as `""` / `0`. -/

/-- Python truthiness of an optional string value (`if value:`). -/
def truthy : Option String → Bool
  | none => false
  | some s => s ≠ ""

/-- The state of `ExecutionOrchestrator`: registered agents (each exposing
`run(prompt, tools) -> result`, which may raise), registered tool names,
and registered pattern dicts.  The embedded agents are functions of the
prompt; the tool instances passed to `run` do not influence the embedded
agents' results. -/
structure Orchestrator where
  agents : List (String × (String → Except String AgentResult))
  tools : List String
  patterns : List (String × PatternData)

/-- `ExecutionOrchestrator.execute_agent(agent_name, input_prompt, tools)`:
raises `ValueError` for an unregistered agent (before any memory write);
filters the requested tool names against the registered ones (unknown
tools are logged and dropped); on a successful `run` stores an entry with
the reported confidence (default 0.8) and returns the result; on an agent
exception stores an entry with confidence 0.0 and an error payload, then
re-raises. -/
def execute_agent (o : Orchestrator) (agentName prompt : String) (tools : List String) :
    Except String AgentResult × List CtxMemoryEntry :=
  match lookupA o.agents agentName with
  | none => (.error ("Agent " ++ agentName ++ " not registered"), [])
  | some agent =>
    let availableTools := tools.filter (fun t => o.tools.contains t)
    match agent prompt with
    | .ok result =>
        (.ok result,
         [{ timestamp := "", agentName := agentName, inputPrompt := prompt,
            output := result, confidence := result.confidence.getD (4/5),
            toolsUsed := availableTools, executionTime := 0, patternApplied := none }])
    | .error e =>
        (.error e,
         [{ timestamp := "", agentName := agentName, inputPrompt := prompt,
            output := { error := some e }, confidence := 0,
            toolsUsed := availableTools, executionTime := 0, patternApplied := none }])

/-- `ExecutionOrchestrator._enhance_prompt_with_pattern`: appends the
pattern's enhancement text when it is non-empty. -/
def enhance_prompt_with_pattern (prompt : String) (p : PatternData) : String :=
  let enhancement := p.enhancement.getD ""
  if enhancement ≠ "" then prompt ++ "\n\n" ++ enhancement else prompt

/-- `ExecutionOrchestrator._format_output`. -/
def format_output (output : String) (formatInstructions : String) : String :=
  if formatInstructions = "markdown" then "# Enhanced Output\n\n" ++ output
  else if formatInstructions = "structured" then
    "## Analysis\n\n" ++ output ++ "\n\n## Recommendations\n\nBased on the analysis above..."
  else output

/-- `ExecutionOrchestrator._transform_output_with_pattern`: applies the
pattern's transformation rules (`add_context`, `enhance_format`) to the
result dict.  (The source's outer `if transformation:` guard is subsumed
by the two inner truthiness guards.) -/
def transform_output_with_pattern (result : AgentResult) (p : PatternData) : AgentResult :=
  let r1 :=
    if truthy p.transformationAddContext then { result with context := p.transformationAddContext }
    else result
  if truthy p.transformationEnhanceFormat then
    let fo := format_output (r1.output.getD "") (p.transformationEnhanceFormat.getD "")
    { r1 with formattedOutput := some fo }
  else r1

/-- `ExecutionOrchestrator._apply_pattern(pattern_name, input_prompt)` for a
pattern `p` already looked up by the caller: `prompt_enhancement` enhances
the prompt and re-invokes the target agent (default `vp_design`);
`output_transformation` re-invokes the target agent then rewrites the
result; any other type is a plain re-invocation.  On success a
pattern-tagged entry is stored; an agent exception propagates. -/
def apply_pattern (o : Orchestrator) (patternName : String) (p : PatternData)
    (prompt : String) : Except String AgentResult × List CtxMemoryEntry :=
  let targetAgent := p.agent.getD "vp_design"
  let step :=
    if p.type == some "prompt_enhancement" then
      execute_agent o targetAgent (enhance_prompt_with_pattern prompt p) []
    else if p.type == some "output_transformation" then
      match execute_agent o targetAgent prompt [] with
      | (.ok res, es) => (.ok (transform_output_with_pattern res p), es)
      | (.error e, es) => (.error e, es)
    else
      execute_agent o targetAgent prompt []
  match step with
  | (.ok result, entries) =>
      (.ok result,
       entries ++ [{ timestamp := "", agentName := "pattern_" ++ patternName,
                     inputPrompt := prompt, output := result,
                     confidence := result.confidence.getD (4/5), toolsUsed := [],
                     executionTime := 0, patternApplied := some patternName }])
  | (.error e, entries) => (.error e, entries)

/-- The low-confidence fallback loop of `execute_with_pattern_fallback`:
try each registered fallback pattern in order and return the first whose
confidence strictly exceeds the primary's; fall through to the primary's
result; a pattern exception escapes the loop (to the outer handler). -/
def try_fallbacks_low (o : Orchestrator) (prompt : String) (c : ℚ) (primary : AgentResult) :
    List String → Except String AgentResult × List CtxMemoryEntry
  | [] => (.ok primary, [])
  | n :: rest =>
    match lookupA o.patterns n with
    | none => try_fallbacks_low o prompt c primary rest
    | some p =>
      match apply_pattern o n p prompt with
      | (.ok pr, es) =>
          if c < pr.confidence.getD 0 then (.ok pr, es)
          else
            let next := try_fallbacks_low o prompt c primary rest
            (next.1, es ++ next.2)
      | (.error e, es) => (.error e, es)

/-- The exception-recovery loop of `execute_with_pattern_fallback`: after
the pending exception `e0`, return the first registered fallback pattern
application that succeeds (no confidence check); if every one fails,
re-raise `e0`. -/
def recover_loop (o : Orchestrator) (prompt : String) (e0 : String) :
    List String → Except String AgentResult × List CtxMemoryEntry
  | [] => (.error e0, [])
  | n :: rest =>
    match lookupA o.patterns n with
    | none => recover_loop o prompt e0 rest
    | some p =>
      match apply_pattern o n p prompt with
      | (.ok pr, es) => (.ok pr, es)
      | (.error _, es) =>
          let next := recover_loop o prompt e0 rest
          (next.1, es ++ next.2)

/-- `ExecutionOrchestrator.execute_with_pattern_fallback(input_prompt,
primary_agent, fallback_patterns)`: run the primary agent; return its
result when confidence ≥ 0.8; otherwise try the fallback patterns for a
strictly better confidence, falling back to the primary's result; when an
exception is pending (from the primary or from a low-confidence fallback
application), try every fallback pattern as recovery and finally
re-raise. -/
def execute_with_pattern_fallback (o : Orchestrator) (prompt primaryAgent : String)
    (fallbackPatterns : List String) : Except String AgentResult × List CtxMemoryEntry :=
  match execute_agent o primaryAgent prompt [] with
  | (.error e, es1) =>
      let recRes := recover_loop o prompt e fallbackPatterns
      (recRes.1, es1 ++ recRes.2)
  | (.ok result, es1) =>
      let c := result.confidence.getD (4/5)
      if (4 : ℚ)/5 ≤ c then (.ok result, es1)
      else
        match try_fallbacks_low o prompt c result fallbackPatterns with
        | (.ok r, es) => (.ok r, es1 ++ es)
        | (.error e, es) =>
            let recRes := recover_loop o prompt e fallbackPatterns
            (recRes.1, es1 ++ es ++ recRes.2)

/-- Specification-side description of the low-confidence fallback choice:
the result of the first registered fallback pattern whose application
yields a confidence strictly greater than `c`, if any. -/
def first_improving_result (o : Orchestrator) (prompt : String) (c : ℚ) :
    List String → Option AgentResult
  | [] => none
  | n :: rest =>
    match lookupA o.patterns n with
    | none => first_improving_result o prompt c rest
    | some p =>
      match (apply_pattern o n p prompt).1 with
      | .ok pr =>
          if c < pr.confidence.getD 0 then some pr
          else first_improving_result o prompt c rest
      | .error _ => first_improving_result o prompt c rest

/-- The per-request state threaded through `execute_pipeline`'s loop. -/
structure PipelineState where
  results : List (String × AgentResult)
  currentInput : String
  entries : List CtxMemoryEntry
  sharedState : List (String × String)
  error : Option String

/-- The loop body of `ExecutionOrchestrator.execute_pipeline`: run each
agent on the current input (with its configured tools), record its result,
thread its truthy `output` (else `enhanced_output`) into the next input,
merge its `shared_state` into the session's shared state; an agent
exception halts the loop with the error recorded and the remaining agents
unexecuted. -/
def pipeline_go (o : Orchestrator) (toolsPerAgent : List (String × List String)) :
    List String → PipelineState → PipelineState
  | [], st => st
  | a :: rest, st =>
    match execute_agent o a st.currentInput ((lookupA toolsPerAgent a).getD []) with
    | (.error e, es) => { st with entries := st.entries ++ es, error := some e }
    | (.ok r, es) =>
        let newInput :=
          if truthy r.output then r.output.getD st.currentInput
          else if truthy r.enhancedOutput then r.enhancedOutput.getD st.currentInput
          else st.currentInput
        pipeline_go o toolsPerAgent rest
          { results := st.results ++ [(a, r)]
            currentInput := newInput
            entries := st.entries ++ es
            sharedState := r.sharedState.foldl (fun m kv => updateAssoc m kv.1 kv.2) st.sharedState
            error := none }

/-- The pipeline result dict (`pipeline_start`/`pipeline_end` timestamps
dropped; `total_execution_time` is 0 in the timeless model). -/
structure PipelineResult where
  agentSequence : List String
  results : List (String × AgentResult)
  finalOutput : Option String
  totalExecutionTime : ℚ
  error : Option String
deriving Repr, DecidableEq

/-- `ExecutionOrchestrator.execute_pipeline(input_prompt, agent_sequence,
tools_per_agent)`: runs the loop; on success sets `final_output` to the
final threaded input; on a caught agent exception returns the structured
failure dict with the partial results and the error string — the
exception is not propagated.  Also returns the appended memory entries
and the final shared state. -/
def execute_pipeline (o : Orchestrator) (inputPrompt : String) (agentSequence : List String)
    (toolsPerAgent : List (String × List String)) :
    PipelineResult × List CtxMemoryEntry × List (String × String) :=
  let st := pipeline_go o toolsPerAgent agentSequence
    { results := [], currentInput := inputPrompt, entries := [], sharedState := [], error := none }
  match st.error with
  | some e =>
      ({ agentSequence := agentSequence, results := st.results, finalOutput := none,
         totalExecutionTime := 0, error := some e }, st.entries, st.sharedState)
  | none =>
      ({ agentSequence := agentSequence, results := st.results,
         finalOutput := some st.currentInput, totalExecutionTime := 0, error := none },
       st.entries, st.sharedState)

/-- Primary agent result for the claim C6 scenario (confidence 0.5). -/
def c6primary : AgentResult := { confidence := some (1/2), output := some "primary output" }

/-- Fallback agent result for the claim C6 scenario (confidence 0.9). -/
def c6fallback : AgentResult := { confidence := some (9/10), output := some "fallback output" }

/-- The fallback pattern of the claim C6 scenario: plain re-invocation of
agent `fb`. -/
def c6pattern : PatternData := { agent := some "fb" }

/-- The orchestrator of the claim C6 scenario. -/
def c6orch : Orchestrator :=
  { agents := [("primary", fun _ => .ok c6primary), ("fb", fun _ => .ok c6fallback)]
    tools := []
    patterns := [("p", c6pattern)] }

/-! ### `src/ChatGPT_Upload_v14/agents/dispatcher_agent.py` -/

/-- Python `needle in hay` substring containment. -/
def strContains (hay needle : String) : Bool :=
  hay.toList.tails.any (fun suffix => needle.toList.isPrefixOf suffix)

/-- Python `s.lower()` (over the character list, so that it evaluates). -/
def strLower (s : String) : String := String.mk (s.toList.map Char.toLower)

/-- One entry of `DispatcherAgent.routing_heuristics`. -/
structure Heuristic where
  ptype : String
  keywords : List String
  primaryAgents : List String
  fallbackAgents : List String
  confidenceThreshold : ℚ
deriving Repr, DecidableEq

/-- The `routing_heuristics` table of `DispatcherAgent.__init__`, in dict
insertion order. -/
def routing_heuristics : List Heuristic :=
  [{ ptype := "design"
     keywords := ["design", "ui", "ux", "interface", "layout", "visual", "user experience"]
     primaryAgents := ["principal_designer", "vp_of_design"]
     fallbackAgents := ["design_technologist", "evaluator"]
     confidenceThreshold := 7/10 },
   { ptype := "strategy"
     keywords := ["strategy", "roadmap", "planning", "business", "market", "executive"]
     primaryAgents := ["strategy_pilot", "vp_of_product"]
     fallbackAgents := ["market_analyst", "evaluator"]
     confidenceThreshold := 7/10 },
   { ptype := "technical"
     keywords := ["code", "implementation", "technical", "development", "component", "system"]
     primaryAgents := ["design_technologist", "component_librarian"]
     fallbackAgents := ["product_navigator", "evaluator"]
     confidenceThreshold := 7/10 },
   { ptype := "content"
     keywords := ["content", "copy", "text", "narrative", "story", "communication"]
     primaryAgents := ["content_designer", "deck_narrator"]
     fallbackAgents := ["feedback_amplifier", "evaluator"]
     confidenceThreshold := 7/10 },
   { ptype := "analysis"
     keywords := ["analyze", "evaluate", "assess", "review", "examine", "study"]
     primaryAgents := ["evaluator", "market_analyst"]
     fallbackAgents := ["strategy_archivist", "research_summarizer"]
     confidenceThreshold := 7/10 },
   { ptype := "creative"
     keywords := ["creative", "innovative", "artistic", "cinematic", "visual", "design"]
     primaryAgents := ["creative_director", "principal_designer"]
     fallbackAgents := ["vp_of_design", "evaluator"]
     confidenceThreshold := 7/10 }]

/-- The confidence one heuristic accumulates on a lower-cased prompt:
`0.15` added per keyword occurring as a substring, i.e. `0.15 * matches`
exactly over ℚ. -/
def match_score (promptLower : String) (h : Heuristic) : ℚ :=
  (15 : ℚ)/100 * ((h.keywords.filter (fun k => strContains promptLower k)).length : ℚ)

/-- The selection loop of `DispatcherAgent._analyze_prompt_type`: keep the
first heuristic whose score strictly exceeds the best so far. -/
def best_loop (pl : String) (best : String × ℚ × List String) :
    List Heuristic → String × ℚ × List String
  | [] => best
  | h :: rest =>
      let conf := match_score pl h
      if best.2.1 < conf then best_loop pl (h.ptype, conf, h.primaryAgents) rest
      else best_loop pl best rest

/-- `DispatcherAgent._analyze_prompt_type(prompt)`: runs the selection loop
from `("general", 0.0, [])` over the heuristics and caps the returned
confidence at 1.0. -/
def analyze_prompt_type (prompt : String) : String × ℚ × List String :=
  let pl := strLower prompt
  let r := best_loop pl ("general", 0, []) routing_heuristics
  (r.1, min r.2.1 1, r.2.2)

/-- The highest heuristic score on a lower-cased prompt (0 when the list
is empty or nothing matches). -/
def list_max_score (pl : String) (hs : List Heuristic) : ℚ :=
  hs.foldr (fun h m => max (match_score pl h) m) 0

/-- Specification-side classification, following the spec's words: score
each heuristic as `0.15 * matched keywords`; pick the type with the
highest score, ties broken in favour of the first-registered heuristic;
cap the returned confidence at 1.0; when no keyword matches, return
`("general", 0.0, [])`. -/
def classify_spec (prompt : String) : String × ℚ × List String :=
  let pl := strLower prompt
  let m := list_max_score pl routing_heuristics
  if 0 < m then
    match routing_heuristics.find? (fun h => m ≤ match_score pl h) with
    | some h => (h.ptype, min m 1, h.primaryAgents)
    | none => ("general", 0, [])
  else ("general", 0, [])

/-! ### `src/patterns/pattern_promoter.py` -/

/-- Python `s.strip()`: drop leading and trailing whitespace. -/
def pyStrip (s : String) : String :=
  String.mk (((s.toList.dropWhile Char.isWhitespace).reverse.dropWhile Char.isWhitespace).reverse)

/-- The `result` dict of a stored run, with the keys `promote_from_memory`
reads: `overall_score` (default 0), `code.output` (default `""`) and
`quality_metrics` (default empty). -/
structure RunResult where
  overallScore : ℚ := 0
  codeOutput : String := ""
  qualityMetrics : List (String × ℚ) := []
deriving Repr, DecidableEq

/-- One memory entry scanned by `promote_from_memory` (`input`, `result`,
`timestamp`). -/
structure RunEntry where
  input : String := ""
  result : RunResult := {}
  timestamp : String := ""
deriving Repr, DecidableEq

/-- A pattern record minted by `promote_from_memory`. -/
structure PromotedPattern where
  name : String
  sourcePrompt : String
  generatedCode : String
  score : ℚ
  qualityMetrics : List (String × ℚ)
  timestamp : String
  originalRun : RunEntry
deriving Repr, DecidableEq

/-- The scanning loop of `PatternPromoter.promote_from_memory`: promote
each run whose `overall_score` meets the threshold and whose stripped
prompt and stripped code output are both non-empty; names count up from
`auto_promoted_1`. -/
def promote_go (threshold : ℚ) (now : String) :
    List RunEntry → List PromotedPattern → List PromotedPattern
  | [], acc => acc
  | run :: rest, acc =>
    if threshold ≤ run.result.overallScore then
      let prompt := pyStrip run.input
      let codeOutput := pyStrip run.result.codeOutput
      if prompt ≠ "" ∧ codeOutput ≠ "" then
        promote_go threshold now rest (acc ++
          [{ name := "auto_promoted_" ++ toString (acc.length + 1)
             sourcePrompt := prompt
             generatedCode := codeOutput
             score := run.result.overallScore
             qualityMetrics := run.result.qualityMetrics
             timestamp := now
             originalRun := run }])
      else promote_go threshold now rest acc
    else promote_go threshold now rest acc

/-- `PatternPromoter.promote_from_memory(memory)`: runs the scan, then —
when anything was promoted — calls `self._write_patterns(promoted)`, a
method that is defined nowhere in the class or module, so Python raises
`AttributeError` before the `return promoted` line can run; with nothing
promoted it returns the empty list. -/
def promote_from_memory (threshold : ℚ) (now : String) (memory : List RunEntry) :
    Except String (List PromotedPattern) :=
  let promoted := promote_go threshold now memory []
  if promoted.isEmpty then .ok promoted
  else .error "AttributeError: PatternPromoter object has no attribute _write_patterns"

/-- An orchestrator whose only agent always raises, for the claim C8
witness. -/
def c8orch : Orchestrator :=
  { agents := [("boom", fun _ => .error "kaput")], tools := [], patterns := [] }

/-- A qualifying run for the claim C9 failing input (score 0.95, both
fields non-empty). -/
def c9run : RunEntry :=
  { input := "make a button", result := { overallScore := 95/100, codeOutput := "button code" },
    timestamp := "t" }

end Fusion

namespace Fusion

/-! ### Helper lemmas -/

theorem lookupA_updateAssoc_self {β : Type} (m : List (String × β)) (k : String) (v : β) :
    lookupA (updateAssoc m k v) k = some v := by
  induction m with
  | nil => simp [updateAssoc, lookupA]
  | cons p rest ih =>
    obtain ⟨k', v'⟩ := p
    by_cases h : k' = k
    · simp [updateAssoc, h, lookupA]
    · simp [updateAssoc, h, lookupA, ih]

theorem recordStep_lookup_getD (name : String) (reg : Registry) (c : ℚ × Bool × String) :
    lookupA (recordStep name reg c).patternUsageStats name =
      (some { usageCount := ((lookupA reg.patternUsageStats name).getD initialStats).usageCount + 1
              successCount := ((lookupA reg.patternUsageStats name).getD initialStats).successCount +
                (if c.2.1 then 1 else 0)
              lastUsed := some c.2.2
              avgConfidence :=
                ((((lookupA reg.patternUsageStats name).getD initialStats).avgConfidence *
                  (((((lookupA reg.patternUsageStats name).getD initialStats).usageCount + 1 : Nat) : ℚ) - 1)) + c.1) /
                  (((((lookupA reg.patternUsageStats name).getD initialStats).usageCount + 1 : Nat) : ℚ)) } : Option UsageStats) := by
  simp [recordStep, record_pattern_usage, lookupA_updateAssoc_self]

theorem recordStep_lookup (name : String) (reg : Registry) (c : ℚ × Bool × String)
    (st : UsageStats) (h : lookupA reg.patternUsageStats name = some st) :
    lookupA (recordStep name reg c).patternUsageStats name =
      some { usageCount := st.usageCount + 1
             successCount := st.successCount + (if c.2.1 then 1 else 0)
             lastUsed := some c.2.2
             avgConfidence :=
               ((st.avgConfidence * (((st.usageCount + 1 : Nat) : ℚ) - 1)) + c.1) /
                 ((st.usageCount + 1 : Nat) : ℚ) } := by
  simp [recordStep, record_pattern_usage, h, lookupA_updateAssoc_self]

/-- Invariant for the running mean: after folding any list of calls over a
state whose stats are `st`, the count grows by the list length and
`avg * count` grows by the sum of the recorded confidences. -/
theorem recordStep_fold_invariant (name : String) (calls : List (ℚ × Bool × String)) :
    ∀ (reg : Registry) (st : UsageStats),
      lookupA reg.patternUsageStats name = some st →
      ∃ st', lookupA ((calls.foldl (recordStep name) reg)).patternUsageStats name = some st' ∧
        st'.usageCount = st.usageCount + calls.length ∧
        st'.avgConfidence * st'.usageCount =
          st.avgConfidence * st.usageCount + (calls.map (·.1)).sum := by
  induction calls with
  | nil =>
    intro reg st h
    exact ⟨st, h, by simp, by simp⟩
  | cons c rest ih =>
    intro reg st h
    obtain ⟨st', h', hcount, havg⟩ := ih (recordStep name reg c) _ (recordStep_lookup name reg c st h)
    dsimp only at hcount havg
    simp only [List.foldl_cons]
    refine ⟨st', h', ?_, ?_⟩
    · simp only [List.length_cons]
      omega
    · have hne : ((st.usageCount : ℚ) + 1) ≠ 0 := by positivity
      simp only [List.map_cons, List.sum_cons, List.length_cons]
      rw [havg]
      push_cast
      field_simp
      ring

/-- Claim C4: for every pattern name and every finite sequence of `k`
`record_usage` calls with confidences `c1..ck` (starting from a registry whose
stats for that name are absent or initial), the stored running average
confidence after the `k`-th call equals the exact arithmetic mean
`(c1 + ... + ck) / k` over exact rational arithmetic, regardless of the
success flags passed. -/
theorem claim_C4_record_usage_exact_mean (reg : Registry) (name : String)
    (calls : List (ℚ × Bool × String))
    (hstart : (lookupA reg.patternUsageStats name).getD initialStats = initialStats)
    (hne : calls ≠ []) :
    ∃ st, lookupA ((calls.foldl (recordStep name) reg)).patternUsageStats name = some st ∧
      st.usageCount = calls.length ∧
      st.avgConfidence = (calls.map (·.1)).sum / (calls.length : ℚ) := by
  match calls with
  | [] => exact absurd rfl hne
  | c :: rest =>
    have h1 := recordStep_lookup_getD name reg c
    rw [hstart] at h1
    dsimp only [initialStats] at h1
    obtain ⟨st', h', hcount, havg⟩ := recordStep_fold_invariant name rest (recordStep name reg c) _ h1
    dsimp only at hcount havg
    simp only [List.foldl_cons]
    refine ⟨st', h', ?_, ?_⟩
    · simp only [List.length_cons]
      omega
    · have hklen : ((c :: rest).length : ℚ) ≠ 0 := by
        simp only [List.length_cons]
        push_cast
        positivity
      rw [eq_div_iff hklen]
      have hcount' : st'.usageCount = (c :: rest).length := by
        simp only [List.length_cons]
        omega
      have hcast : (st'.usageCount : ℚ) = ((c :: rest).length : ℚ) := by
        exact_mod_cast congrArg (Nat.cast (R := ℚ)) hcount'
      rw [← hcast, havg]
      simp only [List.map_cons, List.sum_cons]
      push_cast
      ring

/-- Witness for claim C4 at the concrete call sequence
`[(1/2, true), (3/4, false)]` on the empty registry. -/
theorem claim_C4_record_usage_exact_mean_witness :
    ∃ st, lookupA ((([((1 : ℚ)/2, true, "t1"), ((3 : ℚ)/4, false, "t2")]).foldl
        (recordStep "p") emptyRegistry)).patternUsageStats "p" = some st ∧
      st.usageCount = ([((1 : ℚ)/2, true, "t1"), ((3 : ℚ)/4, false, "t2")]).length ∧
      st.avgConfidence = (([((1 : ℚ)/2, true, "t1"), ((3 : ℚ)/4, false, "t2")]).map (·.1)).sum /
        ((([((1 : ℚ)/2, true, "t1"), ((3 : ℚ)/4, false, "t2")]).length : ℚ)) :=
  claim_C4_record_usage_exact_mean emptyRegistry "p" _ (by rfl) (by simp)

/-- Claim C10: re-registering a pattern under any name overwrites the pattern
data and resets that name's usage statistics to the initial values
(`usage_count 0`, `success_count 0`, `last_used none`, `avg_confidence 0`),
discarding any previously recorded usage history. -/
theorem claim_C10_register_resets_stats (reg : Registry) (name : String) (data : PatternData) :
    lookupA (register_pattern reg name data).patternUsageStats name = some initialStats ∧
    lookupA (register_pattern reg name data).patterns name = some data := by
  exact ⟨lookupA_updateAssoc_self _ _ _, lookupA_updateAssoc_self _ _ _⟩

theorem store_interaction_fold_length (a p : String) (o : AgentResult) (cf : ℚ)
    (ts : List String) (et : ℚ) (pa : Option String) (now : String) (xs : List ℕ) :
    ∀ ctx : FusionCtx,
      ((xs.foldl (fun c _ => store_interaction c a p o cf ts et pa now) ctx)).memory.length =
        ctx.memory.length + xs.length := by
  induction xs with
  | nil => intro ctx; simp
  | cons x rest ih =>
    intro ctx
    simp only [List.foldl_cons, List.length_cons]
    rw [ih]
    simp [store_interaction]
    omega

/-- Counterexample to claim C2 as stated: `FusionContext.store_interaction`
(one of the two cited memory stores) performs no eviction at all — after
inserting 101 entries, 101 entries remain, not 100. -/
theorem claim_C2_counterexample :
    (((List.range 101).foldl
        (fun c _ => store_interaction c "agent" "prompt" {} ((1 : ℚ)/2) [] 0 none "t")
        ({} : FusionCtx))).memory.length = 101 := by
  rw [store_interaction_fold_length]
  simp

/-- Claim C2 (amended): the bounded-retention behaviour holds for
`ExecutionChainOrchestrator._store_in_memory`: a store of at most 100
entries stays at most 100 after an insert, and inserting into a store of
exactly 100 entries evicts exactly the oldest entry (FIFO) and keeps the
newly appended one.  (`FusionContext.store_interaction` has no cap — see
the counterexample.) -/
theorem claim_C2_chain_memory_cap_fifo :
    (∀ (memory : List ChainEntry) (i : String) (r : ChainResult) (now : String),
      memory.length ≤ 100 → (store_in_memory memory i r now).length ≤ 100) ∧
    (∀ (memory : List ChainEntry) (i : String) (r : ChainResult) (now : String),
      memory.length = 100 →
        store_in_memory memory i r now =
          memory.tail ++
            [{ input := i, result := r, timestamp := now,
               success := r.status == "✅ SUCCESS" }]) := by
  constructor
  · intro memory i r now h
    unfold store_in_memory
    dsimp only
    split
    · rename_i hlt
      simp only [List.length_drop]
      omega
    · rename_i hnlt
      omega
  · intro memory i r now h
    unfold store_in_memory
    dsimp only
    rw [if_pos (by simp [h])]
    simp only [List.length_append, h]
    rw [List.drop_append_eq_append_drop]
    simp [h, List.drop_one]

/-- Witness for claim C2 at a concrete 100-entry store. -/
theorem claim_C2_chain_memory_cap_fifo_witness :
    (store_in_memory
        (List.replicate 100
          { input := "old", result := {}, timestamp := "t0", success := false })
        "new" {} "t1").length ≤ 100 ∧
    store_in_memory
        (List.replicate 100
          { input := "old", result := {}, timestamp := "t0", success := false })
        "new" {} "t1" =
      (List.replicate 100
          ({ input := "old", result := {}, timestamp := "t0", success := false } : ChainEntry)).tail ++
        [{ input := "new", result := {}, timestamp := "t1",
           success := ({} : ChainResult).status == "✅ SUCCESS" }] :=
  ⟨claim_C2_chain_memory_cap_fifo.1 _ _ _ _ (by simp),
   claim_C2_chain_memory_cap_fifo.2 _ _ _ _ (by simp)⟩

/-- Counterexample to claim C3 as stated: a persistence failure inside
`AgentMemory.add_memory_entry` (`save_memory` has no try/except) is not
swallowed — it interrupts the caller with an error. -/
theorem claim_C3_counterexample :
    add_memory_entry
      { memory := [], patterns := [], shared_state := [] }
      { timestamp := 0, agent_name := "a", input_text := "p", output := "o",
        confidence := 1/2, patterns_used := [], tools_used := [], execution_time := 0 }
      false = Except.error "write error" := rfl

/-- Claim C3 (amended): `FusionContext.store_interaction` never raises —
it performs no persistence and always just appends the entry; but
`AgentMemory.add_memory_entry`, which does save to the JSON file, has no
exception handling: a successful write yields the updated state, while a
write failure propagates to the caller instead of being swallowed. -/
theorem claim_C3_store_never_raises_save_propagates :
    (∀ (ctx : FusionCtx) (a p : String) (o : AgentResult) (c : ℚ) (t : List String)
        (et : ℚ) (pa : Option String) (now : String),
      (store_interaction ctx a p o c t et pa now).memory =
        ctx.memory ++
          [{ timestamp := now, agentName := a, inputPrompt := p, output := o,
             confidence := c, toolsUsed := t, executionTime := et, patternApplied := pa }]) ∧
    (∀ (st : AgentMemoryState) (e : MemEntry), ∃ st', add_memory_entry st e true = Except.ok st') ∧
    (∀ (st : AgentMemoryState) (e : MemEntry), add_memory_entry st e false = Except.error "write error") := by
  refine ⟨fun ctx a p o c t et pa now => rfl, fun st e => ⟨_, rfl⟩, fun st e => rfl⟩

theorem mem_scored_entries {st : AgentMemoryState} {q : String} {x : MemEntry × ℚ}
    (hx : x ∈ scored_entries st q) :
    x.1 ∈ st.memory ∧ x.2 = relevance_score q x.1 ∧ (1 : ℚ)/10 < x.2 := by
  simp only [scored_entries, List.mem_filterMap] at hx
  obtain ⟨e, he, hsome⟩ := hx
  by_cases h : (1 : ℚ)/10 < relevance_score q e
  · rw [if_pos h] at hsome
    obtain rfl := Option.some.inj hsome
    exact ⟨he, rfl, h⟩
  · rw [if_neg h] at hsome
    cases hsome

theorem mem_get_relevant_memory {st : AgentMemoryState} {q : String} {limit : Nat}
    {e : MemEntry} (he : e ∈ get_relevant_memory st q limit) :
    e ∈ st.memory ∧ (1 : ℚ)/10 < relevance_score q e := by
  simp only [get_relevant_memory, List.mem_map] at he
  obtain ⟨x, hxtake, rfl⟩ := he
  have hx : x ∈ scored_entries st q :=
    ((List.perm_insertionSort scoreGE _).mem_iff).1 (List.take_subset _ _ hxtake)
  obtain ⟨hmem, hscore, hgt⟩ := mem_scored_entries hx
  exact ⟨hmem, hscore ▸ hgt⟩

/-- Counterexample to claim C5 as stated, on a three-entry store and a
ten-word query: the entry scoring exactly 0.1 is dropped (the code filters
with a strict `> 0.1`, not "not below 0.1"), and the two equal-scoring
entries come back oldest first (Python's stable sort keeps memory order),
not most recent first. -/
theorem claim_C5_counterexample :
    get_relevant_memory c5store c5query 5 = [c5e1, c5e2] ∧
    relevance_score c5query c5e3 = 1/10 ∧
    relevance_score c5query c5e1 = relevance_score c5query c5e2 ∧
    c5e1.timestamp < c5e2.timestamp := by
  have hs1 : relevance_score c5query c5e1 = ((2 : ℕ) : ℚ) / ((10 : ℕ) : ℚ) := rfl
  have hs2 : relevance_score c5query c5e2 = ((2 : ℕ) : ℚ) / ((10 : ℕ) : ℚ) := rfl
  have hs3 : relevance_score c5query c5e3 = ((1 : ℕ) : ℚ) / ((10 : ℕ) : ℚ) := rfl
  refine ⟨?_, by rw [hs3]; norm_num, by rw [hs1, hs2], by norm_num [c5e1, c5e2]⟩
  have hsc : scored_entries c5store c5query =
      [(c5e1, relevance_score c5query c5e1), (c5e2, relevance_score c5query c5e2)] := by
    simp only [scored_entries, c5store, List.filterMap]
    rw [if_pos (by rw [hs1]; norm_num), if_pos (by rw [hs2]; norm_num),
      if_neg (by rw [hs3]; norm_num)]
  rw [get_relevant_memory, hsc]
  rw [show ([(c5e1, relevance_score c5query c5e1),
        (c5e2, relevance_score c5query c5e2)].insertionSort scoreGE) =
      [(c5e1, relevance_score c5query c5e1), (c5e2, relevance_score c5query c5e2)] from by
    simp only [List.insertionSort, List.orderedInsert]
    rw [if_pos (by rw [hs1, hs2]; exact le_refl _)]]
  simp

/-- Claim C5 (amended): `get_relevant_memory` scores each entry as
`|query words ∩ entry words| / max(|query words|, 1)`, keeps only entries
whose score is strictly above 0.1, returns at most `limit` entries sorted
by non-increasing score — equal scores keep memory order (oldest first),
per Python's stable sort — and returns the empty list when the store is
empty. -/
theorem claim_C5_relevant_memory_amended :
    (∀ (st : AgentMemoryState) (q : String) (limit : Nat),
        st.memory = [] → get_relevant_memory st q limit = []) ∧
    (∀ (st : AgentMemoryState) (q : String) (limit : Nat),
        (get_relevant_memory st q limit).length ≤ limit) ∧
    (∀ (st : AgentMemoryState) (q : String) (limit : Nat),
        (get_relevant_memory st q limit).Pairwise
          (fun a b => relevance_score q b ≤ relevance_score q a)) ∧
    (∀ (st : AgentMemoryState) (q : String) (limit : Nat) (e : MemEntry),
        e ∈ get_relevant_memory st q limit →
          e ∈ st.memory ∧ (1 : ℚ)/10 < relevance_score q e) := by
  refine ⟨?_, ?_, ?_, fun st q limit e he => mem_get_relevant_memory he⟩
  · intro st q limit h
    simp [get_relevant_memory, scored_entries, h]
  · intro st q limit
    simp only [get_relevant_memory, List.length_map, List.length_take]
    exact min_le_left _ _
  · intro st q limit
    have hs : ((scored_entries st q).insertionSort scoreGE).Pairwise scoreGE :=
      List.sorted_insertionSort scoreGE _
    have htake : (((scored_entries st q).insertionSort scoreGE).take limit).Pairwise scoreGE :=
      hs.sublist (List.take_sublist _ _)
    rw [get_relevant_memory, List.pairwise_map]
    refine List.Pairwise.imp_of_mem ?_ htake
    intro a b ha hb hr
    have ha' := mem_scored_entries
      (((List.perm_insertionSort scoreGE _).mem_iff).1 (List.take_subset _ _ ha))
    have hb' := mem_scored_entries
      (((List.perm_insertionSort scoreGE _).mem_iff).1 (List.take_subset _ _ hb))
    calc relevance_score q b.1 = b.2 := hb'.2.1.symm
      _ ≤ a.2 := hr
      _ = relevance_score q a.1 := ha'.2.1

/-- Witness for claim C5 on the empty store and on the demo store with
limit 1. -/
theorem claim_C5_relevant_memory_amended_witness :
    get_relevant_memory { memory := [], patterns := [], shared_state := [] } "q" 3 = [] ∧
    (get_relevant_memory c5store c5query 1).length ≤ 1 :=
  ⟨claim_C5_relevant_memory_amended.1 _ "q" 3 rfl,
   claim_C5_relevant_memory_amended.2.1 c5store c5query 1⟩

/-- Full evaluation of the claim C6 scenario: the fallback's result is
returned and three memory entries are stored — the primary attempt, the
fallback target agent's own execution record, and the pattern-tagged
application record. -/
theorem c6_eval :
    execute_with_pattern_fallback c6orch "task" "primary" ["p"] =
      (Except.ok c6fallback,
       [{ timestamp := "", agentName := "primary", inputPrompt := "task",
          output := c6primary, confidence := 1/2, toolsUsed := [],
          executionTime := 0, patternApplied := none },
        { timestamp := "", agentName := "fb", inputPrompt := "task",
          output := c6fallback, confidence := 9/10, toolsUsed := [],
          executionTime := 0, patternApplied := none },
        { timestamp := "", agentName := "pattern_p", inputPrompt := "task",
          output := c6fallback, confidence := 9/10, toolsUsed := [],
          executionTime := 0, patternApplied := some "p" }]) := by
  have h1 : execute_agent c6orch "primary" "task" [] =
      (Except.ok c6primary,
       [{ timestamp := "", agentName := "primary", inputPrompt := "task",
          output := c6primary, confidence := 1/2, toolsUsed := [],
          executionTime := 0, patternApplied := none }]) := rfl
  have h2 : apply_pattern c6orch "p" c6pattern "task" =
      (Except.ok c6fallback,
       [{ timestamp := "", agentName := "fb", inputPrompt := "task",
          output := c6fallback, confidence := 9/10, toolsUsed := [],
          executionTime := 0, patternApplied := none },
        { timestamp := "", agentName := "pattern_p", inputPrompt := "task",
          output := c6fallback, confidence := 9/10, toolsUsed := [],
          executionTime := 0, patternApplied := some "p" }]) := rfl
  have h3 : lookupA c6orch.patterns "p" = some c6pattern := rfl
  have h4 : try_fallbacks_low c6orch "task" (c6primary.confidence.getD (4/5)) c6primary ["p"] =
      (Except.ok c6fallback,
       [{ timestamp := "", agentName := "fb", inputPrompt := "task",
          output := c6fallback, confidence := 9/10, toolsUsed := [],
          executionTime := 0, patternApplied := none },
        { timestamp := "", agentName := "pattern_p", inputPrompt := "task",
          output := c6fallback, confidence := 9/10, toolsUsed := [],
          executionTime := 0, patternApplied := some "p" }]) := by
    simp only [try_fallbacks_low, h3, h2]
    rw [if_pos]
    simp only [c6primary, c6fallback, Option.getD_some]
    norm_num
  simp only [execute_with_pattern_fallback, h1]
  rw [if_neg]
  · rw [h4]
    rfl
  · simp only [c6primary, Option.getD_some]
    norm_num

/-- Counterexample to claim C6 as stated: in the prescribed scenario the
fallback's result is indeed returned, but the memory store afterwards
holds three entries, not two: `_apply_pattern` stores a pattern-tagged
entry on top of the entry `execute_agent` already stored for the
fallback's target agent. -/
theorem claim_C6_counterexample :
    (execute_with_pattern_fallback c6orch "task" "primary" ["p"]).1 = Except.ok c6fallback ∧
    (execute_with_pattern_fallback c6orch "task" "primary" ["p"]).2.length = 3 ∧
    ((execute_with_pattern_fallback c6orch "task" "primary" ["p"]).2.length = 2 → False) := by
  rw [c6_eval]
  refine ⟨rfl, rfl, by simp⟩

/-- Claim C6 (amended): with a primary agent of confidence 0.5 and one
registered fallback pattern whose target agent returns confidence 0.9,
the call returns the fallback's result, and memory afterwards contains
exactly three entries: the primary attempt, the fallback target agent's
execution record, and the pattern-tagged fallback application record. -/
theorem claim_C6_fallback_result_three_entries :
    execute_with_pattern_fallback c6orch "task" "primary" ["p"] =
      (Except.ok c6fallback,
       [{ timestamp := "", agentName := "primary", inputPrompt := "task",
          output := c6primary, confidence := 1/2, toolsUsed := [],
          executionTime := 0, patternApplied := none },
        { timestamp := "", agentName := "fb", inputPrompt := "task",
          output := c6fallback, confidence := 9/10, toolsUsed := [],
          executionTime := 0, patternApplied := none },
        { timestamp := "", agentName := "pattern_p", inputPrompt := "task",
          output := c6fallback, confidence := 9/10, toolsUsed := [],
          executionTime := 0, patternApplied := some "p" }]) := c6_eval

/-- The low-confidence loop returns the first registered improving
pattern's result, falling back to the primary's result, provided no tried
pattern application raises. -/
theorem try_fallbacks_low_spec (o : Orchestrator) (prompt : String) (c : ℚ)
    (primary : AgentResult) (fallbacks : List String)
    (hfb : ∀ n ∈ fallbacks, ∀ p, lookupA o.patterns n = some p →
        ∃ r, (apply_pattern o n p prompt).1 = Except.ok r) :
    (try_fallbacks_low o prompt c primary fallbacks).1 =
      Except.ok ((first_improving_result o prompt c fallbacks).getD primary) := by
  induction fallbacks with
  | nil => rfl
  | cons n rest ih =>
    have hrest : ∀ n' ∈ rest, ∀ p, lookupA o.patterns n' = some p →
        ∃ r, (apply_pattern o n' p prompt).1 = Except.ok r :=
      fun n' hn' => hfb n' (List.mem_cons_of_mem _ hn')
    cases hl : lookupA o.patterns n with
    | none =>
      simp only [try_fallbacks_low, first_improving_result, hl]
      exact ih hrest
    | some p =>
      obtain ⟨r, hr⟩ := hfb n (List.mem_cons_self _ _) p hl
      have hpair : apply_pattern o n p prompt =
          (Except.ok r, (apply_pattern o n p prompt).2) := by
        rw [← hr]
      simp only [try_fallbacks_low, first_improving_result, hl, hr]
      rw [hpair]
      by_cases hc : c < r.confidence.getD 0
      · rw [if_pos hc]
        simp [hc]
      · rw [if_neg hc]
        simp only [hc, if_false, if_neg hc]
        exact ih hrest

/-- Claim C1: when the primary agent returns a result with confidence
below 0.8 and every registered fallback pattern's application yields a
result (no exception), `execute_with_pattern_fallback` returns the first
registered fallback result whose confidence strictly exceeds the
primary's, and the primary's original result object unchanged when no
fallback improves on it — never an error. -/
theorem claim_C1_fallback_first_improving_or_primary (o : Orchestrator)
    (prompt primary : String) (fallbacks : List String) (result : AgentResult)
    (hok : (execute_agent o primary prompt []).1 = Except.ok result)
    (hlow : result.confidence.getD (4/5) < 4/5)
    (hfb : ∀ n ∈ fallbacks, ∀ p, lookupA o.patterns n = some p →
        ∃ r, (apply_pattern o n p prompt).1 = Except.ok r) :
    (execute_with_pattern_fallback o prompt primary fallbacks).1 =
      Except.ok
        ((first_improving_result o prompt (result.confidence.getD (4/5)) fallbacks).getD
          result) := by
  have hpair : execute_agent o primary prompt [] =
      (Except.ok result, (execute_agent o primary prompt []).2) := by
    rw [← hok]
  have hspec := try_fallbacks_low_spec o prompt (result.confidence.getD (4/5)) result
    fallbacks hfb
  simp only [execute_with_pattern_fallback]
  rw [hpair]
  simp only []
  rw [if_neg (not_le.mpr hlow)]
  cases htf : try_fallbacks_low o prompt (result.confidence.getD (4/5)) result fallbacks with
  | mk r2 es2 =>
    rw [htf] at hspec
    simp only at hspec
    cases r2 with
    | ok x => simpa using hspec
    | error e => cases hspec

/-- Witness for claim C1 on the concrete C6 scenario. -/
theorem claim_C1_fallback_first_improving_or_primary_witness :
    (execute_with_pattern_fallback c6orch "task" "primary" ["p"]).1 =
      Except.ok
        ((first_improving_result c6orch "task" (c6primary.confidence.getD (4/5)) ["p"]).getD
          c6primary) :=
  claim_C1_fallback_first_improving_or_primary c6orch "task" "primary" ["p"] c6primary rfl
    (by simp only [c6primary, Option.getD_some]; norm_num)
    (by
      intro n hn p hp
      simp only [List.mem_singleton] at hn
      subst hn
      have : lookupA c6orch.patterns "p" = some c6pattern := rfl
      rw [this] at hp
      obtain rfl := Option.some.inj hp
      exact ⟨c6fallback, rfl⟩)

/-- Claim C8: when a registered agent's `run` raises, `execute_agent`
records a memory entry with confidence 0.0 and an error payload and
re-raises; `pipeline_go` (the loop of `execute_pipeline`) then halts with
the error recorded, the remaining sequence unexecuted and the partial
per-agent results preserved; and `execute_pipeline` returns a structured
failure result instead of propagating the exception. -/
theorem claim_C8_agent_failure_halts_pipeline (o : Orchestrator) (a : String)
    (f : String → Except String AgentResult) (u e : String)
    (hreg : lookupA o.agents a = some f) (herr : f u = Except.error e) :
    (∀ tools : List String,
      execute_agent o a u tools =
        (Except.error e,
         [{ timestamp := "", agentName := a, inputPrompt := u,
            output := { error := some e }, confidence := 0,
            toolsUsed := tools.filter (fun t => o.tools.contains t),
            executionTime := 0, patternApplied := none }])) ∧
    (∀ (tp : List (String × List String)) (rest : List String) (st : PipelineState),
      st.currentInput = u →
      pipeline_go o tp (a :: rest) st =
        { st with
            entries := st.entries ++ (execute_agent o a u ((lookupA tp a).getD [])).2
            error := some e }) ∧
    (∀ (tp : List (String × List String)) (rest : List String),
      (execute_pipeline o u (a :: rest) tp).1 =
        { agentSequence := a :: rest, results := [], finalOutput := none,
          totalExecutionTime := 0, error := some e }) := by
  have hea : ∀ tools : List String,
      execute_agent o a u tools =
        (Except.error e,
         [{ timestamp := "", agentName := a, inputPrompt := u,
            output := { error := some e }, confidence := 0,
            toolsUsed := tools.filter (fun t => o.tools.contains t),
            executionTime := 0, patternApplied := none }]) := by
    intro tools
    simp only [execute_agent, hreg, herr]
  have hgo : ∀ (tp : List (String × List String)) (rest : List String) (st : PipelineState),
      st.currentInput = u →
      pipeline_go o tp (a :: rest) st =
        { st with
            entries := st.entries ++ (execute_agent o a u ((lookupA tp a).getD [])).2
            error := some e } := by
    intro tp rest st hcur
    simp only [pipeline_go, hcur, hea]
  refine ⟨hea, hgo, ?_⟩
  intro tp rest
  simp only [execute_pipeline]
  rw [hgo tp rest _ rfl]

/-- Witness for claim C8 at a concrete always-raising agent. -/
theorem claim_C8_agent_failure_halts_pipeline_witness :
    execute_agent c8orch "boom" "go" [] =
      (Except.error "kaput",
       [{ timestamp := "", agentName := "boom", inputPrompt := "go",
          output := { error := some "kaput" }, confidence := 0,
          toolsUsed := List.filter (fun t => c8orch.tools.contains t) [],
          executionTime := 0, patternApplied := none }]) ∧
    (execute_pipeline c8orch "go" ["boom"] []).1 =
      { agentSequence := ["boom"], results := [], finalOutput := none,
        totalExecutionTime := 0, error := some "kaput" } :=
  ⟨(claim_C8_agent_failure_halts_pipeline c8orch "boom" _ "go" "kaput" rfl rfl).1 [],
   (claim_C8_agent_failure_halts_pipeline c8orch "boom" _ "go" "kaput" rfl rfl).2.2 [] []⟩

/-- Claim C9, evaluated at the failing input: on a memory holding one
qualifying entry (score 0.95 ≥ threshold, non-empty stripped prompt and
output), the scan correctly selects the entry for promotion, but
`promote_from_memory` then raises `AttributeError` — `_write_patterns` is
defined nowhere — instead of returning the promoted pattern list the
claim (and the spec) describe. -/
theorem claim_C9_promote_raises_attribute_error :
    promote_go (95/100) "now" [c9run] [] =
      [{ name := "auto_promoted_1", sourcePrompt := "make a button",
         generatedCode := "button code", score := 95/100, qualityMetrics := [],
         timestamp := "now", originalRun := c9run }] ∧
    promote_from_memory (95/100) "now" [c9run] =
      Except.error "AttributeError: PatternPromoter object has no attribute _write_patterns" := by
  have hgo : promote_go (95/100) "now" [c9run] [] =
      [{ name := "auto_promoted_1", sourcePrompt := "make a button",
         generatedCode := "button code", score := 95/100, qualityMetrics := [],
         timestamp := "now", originalRun := c9run }] := by
    simp only [promote_go, c9run]
    rw [if_pos (by norm_num)]
    rw [if_pos (by decide)]
    rfl
  refine ⟨hgo, ?_⟩
  simp only [promote_from_memory, hgo]
  rfl

theorem match_score_nonneg (pl : String) (h : Heuristic) : 0 ≤ match_score pl h := by
  unfold match_score
  positivity

theorem list_max_score_nonneg (pl : String) (hs : List Heuristic) :
    0 ≤ list_max_score pl hs := by
  induction hs with
  | nil => exact le_refl 0
  | cons h t ih => exact le_trans ih (le_max_right _ _)

theorem list_max_score_cons (pl : String) (h : Heuristic) (t : List Heuristic) :
    list_max_score pl (h :: t) = max (match_score pl h) (list_max_score pl t) := rfl

/-- When every remaining score is at most the current best confidence, the
selection loop keeps the current best. -/
theorem best_loop_of_le (pl : String) :
    ∀ (hs : List Heuristic) (best : String × ℚ × List String),
      list_max_score pl hs ≤ best.2.1 → best_loop pl best hs = best := by
  intro hs
  induction hs with
  | nil => intro best _; rfl
  | cons h t ih =>
    intro best hle
    rw [list_max_score_cons, max_le_iff] at hle
    simp only [best_loop]
    rw [if_neg (not_lt.mpr hle.1)]
    exact ih best hle.2

/-- When the maximum score strictly exceeds the current best confidence,
the selection loop lands on the first heuristic attaining the maximum. -/
theorem best_loop_find (pl : String) :
    ∀ (hs : List Heuristic) (best : String × ℚ × List String) (m : ℚ),
      m = list_max_score pl hs → best.2.1 < m → 0 ≤ best.2.1 →
      ∃ h, hs.find? (fun x => decide (m ≤ match_score pl x)) = some h ∧
        match_score pl h = m ∧
        best_loop pl best hs = (h.ptype, m, h.primaryAgents) := by
  intro hs
  induction hs with
  | nil =>
    intro best m hm hlt hnn
    simp only [list_max_score, List.foldr_nil] at hm
    exact absurd (hm ▸ hlt) (not_lt.mpr hnn)
  | cons h t ih =>
    intro best m hm hlt hnn
    rw [list_max_score_cons] at hm
    rcases le_or_lt (list_max_score pl t) (match_score pl h) with hA | hB
    · have hmh : m = match_score pl h := by rw [hm, max_eq_left hA]
      refine ⟨h, ?_, hmh.symm, ?_⟩
      · exact List.find?_cons_of_pos _ (by simp [hmh])
      · simp only [best_loop]
        rw [if_pos (hmh ▸ hlt)]
        rw [best_loop_of_le pl t (h.ptype, match_score pl h, h.primaryAgents) hA]
        rw [hmh]
    · have hmt : m = list_max_score pl t := by rw [hm, max_eq_right (le_of_lt hB)]
      have hpneg : (fun x => decide (m ≤ match_score pl x)) h = false := by
        simp only [decide_eq_false_iff_not, not_le]
        rw [hmt]
        exact hB
      by_cases hup : best.2.1 < match_score pl h
      · obtain ⟨h', hfind', hsc', hloop'⟩ :=
          ih (h.ptype, match_score pl h, h.primaryAgents) m (by simpa using hmt)
            (by simpa using hmt ▸ hB) (match_score_nonneg pl h)
        refine ⟨h', ?_, hsc', ?_⟩
        · rw [List.find?_cons_of_neg _ (by simp [hpneg])]
          exact hfind'
        · simp only [best_loop]
          rw [if_pos hup]
          exact hloop'
      · obtain ⟨h', hfind', hsc', hloop'⟩ := ih best m (by simpa using hmt) hlt hnn
        refine ⟨h', ?_, hsc', ?_⟩
        · rw [List.find?_cons_of_neg _ (by simp [hpneg])]
          exact hfind'
        · simp only [best_loop]
          rw [if_neg hup]
          exact hloop'

/-- Claim C7: `_analyze_prompt_type` computes each heuristic's score as
0.15 times its number of keywords occurring in the lower-cased prompt,
caps the returned confidence at 1.0, returns the type of the heuristic
with the highest score (ties broken in favour of the first-registered
heuristic), and returns `("general", 0.0, [])` when no keyword of any
heuristic matches — i.e. it coincides with the specification-side
`classify_spec` on every prompt. -/
theorem claim_C7_analyze_prompt_type_spec (prompt : String) :
    analyze_prompt_type prompt = classify_spec prompt := by
  simp only [analyze_prompt_type, classify_spec]
  by_cases h0 : 0 < list_max_score (strLower prompt) routing_heuristics
  · obtain ⟨h, hfind, hsc, hloop⟩ :=
      best_loop_find (strLower prompt) routing_heuristics ("general", 0, []) _ rfl h0
        (le_refl 0)
    rw [if_pos h0, hfind, hloop]
  · rw [if_neg h0]
    have hle : list_max_score (strLower prompt) routing_heuristics ≤ 0 := not_lt.mp h0
    rw [best_loop_of_le (strLower prompt) routing_heuristics ("general", 0, []) hle]
    simp

end Fusion
